import Mathlib

/-!
Verification of the desktop-notes record store, lifecycle coordinator and
interaction controller (Sasha1Ururu/desktop-notes) against its specification.

The development shallowly embeds the C++/Qt sources:
  * `src/data/notedata.h` — the `Note` / `NoteStyle` records;
  * `src/data/databasemanager.cpp` — the SQLite-backed store
    (`addNote`, `updateNote`, `getNoteById`, `getAllNotes`,
    `deleteNoteById`, `setNoteStatus`);
  * `src/desktopnotesapplet.cpp` — the applet lifecycle
    (init / loadNoteData and the adoption scan), the drag/resize geometry
    engine (`mouseMoveEvent` / `mouseReleaseEvent`), and the context-menu
    styling flow (`handleStyling`);
  * `src/stylingdialog.cpp` — the styling dialog's live-edit / revert
    behaviour.

Modelling conventions:
  * C++ `int` columns and coordinates are `Int`; the geometry engine works
    on `qreal` (`QPointF` / `QRectF`), modelled as `ℚ`.
  * The SQLite table is a list of rows held in rowid (= id) order, the order
    in which SQLite's B-tree scan of `SELECT ... FROM notes` (no ORDER BY)
    returns rows; `AUTOINCREMENT` is a `nextId` counter.
  * Statement execution can fail at runtime (I/O error, SQLITE_BUSY from a
    concurrent instance); where a claim depends on that branch the embedding
    takes the exec outcome as an explicit boolean.
  * The JSON style blob is kept at the QVariant level: serialisation keeps
    the structured value, C++ ints become JSON numbers on the way through
    `QJsonDocument::fromVariant`, exactly as Qt does.
-/

namespace DesktopNotes

/-- Integer point, as Qt's `QPoint` (used by `Note.position`). -/
structure PointI where
  x : Int
  y : Int
deriving DecidableEq, Repr

/-- Integer size, as Qt's `QSize` (used by `Note.size`). -/
structure SizeI where
  w : Int
  h : Int
deriving DecidableEq, Repr

/-- `NoteStyle` from `src/data/notedata.h`.  `transparency` is a C++ `double`
on which the program does no arithmetic (it is only stored, serialised and
compared), modelled as `ℚ`. -/
structure NoteStyle where
  transparency : ℚ
  backgroundColor : String
  margin : Int
deriving DecidableEq, Repr

/-- The default-constructed `NoteStyle`: `{1.0, "#FFFFE0", 10}`. -/
def NoteStyle.default : NoteStyle :=
  { transparency := 1, backgroundColor := "#FFFFE0", margin := 10 }

/-- `Note` from `src/data/notedata.h`. -/
structure Note where
  id : Int
  status : String
  filepath : String
  position : PointI
  size : SizeI
  style : NoteStyle
deriving DecidableEq, Repr

/-- The default-constructed `Note`:
`id = -1`, `status = "shown"`, empty `filepath`, position `(50,50)`,
size `(200,150)`, default style. -/
def Note.default : Note :=
  { id := -1, status := "shown", filepath := ""
    position := { x := 50, y := 50 }, size := { w := 200, h := 150 }
    style := NoteStyle.default }

/-- `Note::isValid`: `id != -1`. -/
def Note.isValid (n : Note) : Bool := n.id != -1

/-! ### The QVariant/JSON layer for the `style` column

`styleToVariantMap` builds a `QVariantMap`; `addNote`/`updateNote` run it
through `QJsonDocument::fromVariant(...).toJson(Compact)` and the readers run
`QJsonDocument::fromJson(...).object().toVariantMap()`.  A JSON value here is
either a number or a string; `fromVariant` turns the C++ `int` margin into a
JSON number (JSON has no integer type), and Qt's compact JSON round-trips the
numeric value, so the text layer is value-preserving and the blob is modelled
as the structured key/value list itself. -/

/-- A JSON / QVariant scalar as it occurs in the style blob. -/
inductive JValue where
  | num (q : ℚ)
  | str (s : String)
deriving DecidableEq, Repr

/-- `QVariantMap::value(key, defaultValue)`: the stored value, or the given
default when the key is absent. -/
def mapValue (m : List (String × JValue)) (k : String) (d : JValue) : JValue :=
  match m.find? (fun p => p.fst == k) with
  | some p => p.snd
  | none => d

/-- `QVariant::toDouble` on a style-blob scalar.  A non-numeric string
converts to `0.0`; the branch is unreachable for blobs written by the store. -/
def JValue.toDouble : JValue → ℚ
  | .num q => q
  | .str _ => 0

/-- `QVariant::toString` on a style-blob scalar.  Qt renders a number as its
decimal text; the blobs written by the store never hold a number under the
`backgroundColor` key, so the numeric rendering is left abstract as `""`. -/
def JValue.toQString : JValue → String
  | .num _ => ""
  | .str s => s

/-- Qt's `qRound` on a `qreal`: `int(d + 0.5)` for `d ≥ 0`, `int(d - 0.5)`
otherwise, where the C cast truncates toward zero. -/
def qRound (q : ℚ) : Int :=
  if 0 ≤ q then ⌊q + 1/2⌋ else ⌈q - 1/2⌉

/-- `QVariant::toInt` on a style-blob scalar (Qt converts `double` to an
integer with `qRound64`; strings that do not parse give 0). -/
def JValue.toInt : JValue → Int
  | .num q => qRound q
  | .str _ => 0

/-- `DatabaseManager::styleToVariantMap` (databasemanager.cpp:114). -/
def styleToVariantMap (style : NoteStyle) : List (String × JValue) :=
  [("transparency", .num style.transparency),
   ("backgroundColor", .str style.backgroundColor),
   ("margin", .num (style.margin : ℚ))]

/-- `DatabaseManager::styleFromVariantMap` (databasemanager.cpp:123), with
the source's per-key defaults. -/
def styleFromVariantMap (m : List (String × JValue)) : NoteStyle :=
  { transparency := (mapValue m "transparency" (.num 1)).toDouble
    backgroundColor := (mapValue m "backgroundColor" (.str "#FFFFE0")).toQString
    margin := (mapValue m "margin" (.num 10)).toInt }

/-! ### The store -/

/-- One row of the `notes` table (schema in
`DatabaseManager::initializeDatabase`, databasemanager.cpp:84).  `filepath`
is a nullable column: `addNote`/`updateNote` bind SQL NULL when the string is
empty.  The `style` column holds the serialised blob, kept structured (see
above). -/
structure Row where
  id : Int
  status : String
  filepath : Option String
  posX : Int
  posY : Int
  sizeW : Int
  sizeH : Int
  style : List (String × JValue)
deriving DecidableEq, Repr

/-- The open database: the `notes` table in rowid order plus the
`AUTOINCREMENT` counter (the next id SQLite will assign). -/
structure DB where
  rows : List Row
  nextId : Int
deriving DecidableEq, Repr

/-- Well-formedness maintained by SQLite: rows are stored (and scanned) in
strictly ascending id order, and `AUTOINCREMENT` never reuses an id. -/
def DB.wf (db : DB) : Prop :=
  List.Chain' (fun a b => a.id < b.id) db.rows ∧ ∀ r ∈ db.rows, r.id < db.nextId

instance (db : DB) : Decidable db.wf :=
  inferInstanceAs (Decidable (List.Chain' (fun a b : Row => a.id < b.id) db.rows ∧
    ∀ r ∈ db.rows, r.id < db.nextId))

/-- `DatabaseManager::addNote` (databasemanager.cpp:133): INSERT of every
field but the id; the style blob is serialised; an empty filepath is bound as
NULL; returns `lastInsertId`, or `-1` when the INSERT fails to execute
(`execOk = false`). -/
def addNote (db : DB) (noteData : Note) (execOk : Bool) : Int × DB :=
  if execOk then
    let row : Row :=
      { id := db.nextId, status := noteData.status
        filepath := if noteData.filepath.isEmpty then none else some noteData.filepath
        posX := noteData.position.x, posY := noteData.position.y
        sizeW := noteData.size.w, sizeH := noteData.size.h
        style := styleToVariantMap noteData.style }
    (db.nextId, { rows := db.rows ++ [row], nextId := db.nextId + 1 })
  else (-1, db)

/-- `DatabaseManager::updateNote` (databasemanager.cpp:166): refuses id `-1`;
otherwise a full-row UPDATE keyed by id.  When the statement executes, the
call returns `true` even if no row matched (`numRowsAffected() == 0` is only
logged); `execOk = false` models a failed `query.exec()`. -/
def updateNote (db : DB) (noteData : Note) (execOk : Bool) : Bool × DB :=
  if noteData.id = -1 then (false, db)
  else if execOk then
    let rows := db.rows.map (fun r =>
      if r.id = noteData.id then
        { id := r.id, status := noteData.status
          filepath := if noteData.filepath.isEmpty then none else some noteData.filepath
          posX := noteData.position.x, posY := noteData.position.y
          sizeW := noteData.size.w, sizeH := noteData.size.h
          style := styleToVariantMap noteData.style }
      else r)
    (true, { db with rows := rows })
  else (false, db)

/-- Decode one scanned row into a `Note`, exactly as the row loop of
`getNoteById` / `getAllNotes` does: a NULL filepath becomes the empty
string, the style blob is parsed back through `styleFromVariantMap`. -/
def noteOfRow (r : Row) : Note :=
  { id := r.id, status := r.status
    filepath := match r.filepath with | none => "" | some s => s
    position := { x := r.posX, y := r.posY }
    size := { w := r.sizeW, h := r.sizeH }
    style := styleFromVariantMap r.style }

/-- `DatabaseManager::getNoteById` (databasemanager.cpp:214): starts from a
default-constructed `Note` and fills it only when the SELECT finds the row;
an absent id therefore returns `Note.default`. -/
def getNoteById (db : DB) (id : Int) : Note :=
  match db.rows.find? (fun r => r.id == id) with
  | some r => noteOfRow r
  | none => Note.default

/-- `DatabaseManager::getAllNotes` (databasemanager.cpp:246): plain
`SELECT ... FROM notes`, decoded row by row in scan order. -/
def getAllNotes (db : DB) : List Note :=
  db.rows.map noteOfRow

/-- `DatabaseManager::deleteNoteById` (databasemanager.cpp:276): DELETE keyed
by id; deleting an absent id is not an error (returns `true` either way). -/
def deleteNoteById (db : DB) (id : Int) : Bool × DB :=
  (true, { db with rows := db.rows.filter (fun r => !(r.id == id)) })

/-- `DatabaseManager::setNoteStatus` (databasemanager.cpp:300): a single
UPDATE of the status column keyed by id, with no inspection of the status
string; `numRowsAffected() == 0` is only logged, the call returns `true`. -/
def setNoteStatus (db : DB) (id : Int) (status : String) : Bool × DB :=
  (true, { db with rows := db.rows.map (fun r =>
    if r.id = id then { r with status := status } else r) })

/-! ### Lifecycle coordinator (desktopnotesapplet.cpp) -/

/-- `DesktopNotesApplet::initializeNewNote` (desktopnotesapplet.cpp:106).
The adoption scan: fetch all notes, take the first one whose status is
`"pending_placement"`; if one is found, set its status to `"shown"` and write
it back with `updateNote` — on success that record is adopted, on failure the
code falls back to inserting a fresh default note; if no pending record
exists, a fresh default note is inserted.  `updOk` / `addOk` are the exec
outcomes of the UPDATE resp. INSERT statements. -/
def initNewNote (db : DB) (updOk addOk : Bool) : Note × DB :=
  let allNotes := getAllNotes db
  match allNotes.find? (fun n => n.status == "pending_placement") with
  | some adoptableNote =>
    let mnote := { adoptableNote with status := "shown" }
    let upd := updateNote db mnote updOk
    if upd.fst then (mnote, upd.snd)
    else
      let ins := addNote upd.snd Note.default addOk
      (if ins.fst != -1 then { Note.default with id := ins.fst } else Note.default, ins.snd)
  | none =>
    let ins := addNote db Note.default addOk
    (if ins.fst != -1 then { Note.default with id := ins.fst } else Note.default, ins.snd)

/-- `DesktopNotesApplet::loadNoteData` (desktopnotesapplet.cpp:166): with an
invalid in-memory id nothing is loaded; otherwise the record is fetched —
if the fetch yields a valid note it replaces the in-memory copy, and if not
(deleted externally) the code keeps the remembered id, clears `filepath` and
only displays an error. -/
def loadNoteData (m : Note) (db : DB) : Note :=
  if m.isValid = false then m
  else
    let dbNote := getNoteById db m.id
    if dbNote.isValid then dbNote
    else { m with filepath := "" }

/-- `DesktopNotesApplet::init` (desktopnotesapplet.cpp:61) together with
`readConfig`: the remembered `noteId` (or `-1`) is restored into a
default-constructed `m_note`; `initializeNewNote` runs only when that id is
invalid; then `loadNoteData` runs.  Returns the resolved in-memory note and
the store. -/
def appletInit (rememberedId : Int) (db : DB) (updOk addOk : Bool) : Note × DB :=
  let m0 : Note := { Note.default with id := rememberedId }
  let step :=
    if m0.isValid = false then initNewNote db updOk addOk else (m0, db)
  (loadNoteData step.fst step.snd, step.snd)

/-! ### The read-then-write claim, step by step

`initializeNewNote`'s adoption is two separate store calls: a read
(`getAllNotes` + scan) and a write (`updateNote`).  To examine concurrent
callers the two halves are exposed individually; an interleaving of two
callers is then just a sequence of these calls against the shared store. -/

/-- The read half of the claim: scan `getAllNotes` for the first
`"pending_placement"` record (desktopnotesapplet.cpp:111-121). -/
def claimRead (db : DB) : Option Note :=
  (getAllNotes db).find? (fun n => n.status == "pending_placement")

/-- The write half of the claim: set the candidate's status to `"shown"` and
write the full row back (desktopnotesapplet.cpp:125-129); the caller takes
the returned boolean as "I claimed it". -/
def claimWrite (db : DB) (candidate : Note) : Bool × DB :=
  updateNote db { candidate with status := "shown" } true

/-! ### Interaction controller (drag/resize geometry engine) -/

/-- `DesktopNotesApplet::ResizeHandle` (desktopnotesapplet.h). -/
inductive ResizeHandle where
  | None | TopLeft | Top | TopRight | Left | Right | BottomLeft | Bottom | BottomRight | Body
deriving DecidableEq, Repr

/-- Qt's `QRectF`: stored as x, y, width, height over `qreal`. -/
structure RectF where
  x : ℚ
  y : ℚ
  w : ℚ
  h : ℚ
deriving DecidableEq, Repr

/-- `QRectF::left`. -/
def RectF.left (r : RectF) : ℚ := r.x

/-- `QRectF::top`. -/
def RectF.top (r : RectF) : ℚ := r.y

/-- `QRectF::right` = x + width. -/
def RectF.right (r : RectF) : ℚ := r.x + r.w

/-- `QRectF::bottom` = y + height. -/
def RectF.bottom (r : RectF) : ℚ := r.y + r.h

/-- `QRectF::setLeft`: moves the left edge, keeping the right edge fixed. -/
def RectF.setLeft (r : RectF) (v : ℚ) : RectF :=
  { r with x := v, w := r.x + r.w - v }

/-- `QRectF::setTop`: moves the top edge, keeping the bottom edge fixed. -/
def RectF.setTop (r : RectF) (v : ℚ) : RectF :=
  { r with y := v, h := r.y + r.h - v }

/-- `QRectF::setRight`: moves the right edge, keeping the left edge fixed. -/
def RectF.setRight (r : RectF) (v : ℚ) : RectF :=
  { r with w := v - r.x }

/-- `QRectF::setBottom`: moves the bottom edge, keeping the top edge fixed. -/
def RectF.setBottom (r : RectF) (v : ℚ) : RectF :=
  { r with h := v - r.y }

/-- `QRectF::setWidth`: keeps the left edge, moves the right edge. -/
def RectF.setWidth (r : RectF) (v : ℚ) : RectF := { r with w := v }

/-- `QRectF::setHeight`: keeps the top edge, moves the bottom edge. -/
def RectF.setHeight (r : RectF) (v : ℚ) : RectF := { r with h := v }

/-- `QRectF::translate`. -/
def RectF.translate (r : RectF) (dx dy : ℚ) : RectF :=
  { r with x := r.x + dx, y := r.y + dy }

/-- The edge-adjustment part of `DesktopNotesApplet::mouseMoveEvent`
(desktopnotesapplet.cpp:611-626), before the minimum-size clamp: Body
translates; each edge membership of the handle applies `setLeft`/`setTop`/
`setRight`/`setBottom` at the original geometry's edge plus the delta. -/
def moveGeometryUnclamped (handle : ResizeHandle) (orig : RectF) (dx dy : ℚ) : RectF :=
  if handle = .Body then orig.translate dx dy
  else
    let g := orig
    let g := if handle = .TopLeft ∨ handle = .Left ∨ handle = .BottomLeft then
      g.setLeft (orig.left + dx) else g
    let g := if handle = .TopLeft ∨ handle = .Top ∨ handle = .TopRight then
      g.setTop (orig.top + dy) else g
    let g := if handle = .TopRight ∨ handle = .Right ∨ handle = .BottomRight then
      g.setRight (orig.right + dx) else g
    let g := if handle = .BottomLeft ∨ handle = .Bottom ∨ handle = .BottomRight then
      g.setBottom (orig.bottom + dy) else g
    g

/-- One pointer-move step of `DesktopNotesApplet::mouseMoveEvent`
(desktopnotesapplet.cpp:600-638) while dragging with the given handle:
the edge adjustments from the gesture's captured original geometry, then the
minimum-size clamp `if (width < 50) setWidth(50); if (height < 30)
setHeight(30)`, applied only on the resize branch (not for Body). -/
def moveGeometry (handle : ResizeHandle) (orig : RectF) (dx dy : ℚ) : RectF :=
  if handle = .Body then orig.translate dx dy
  else
    let g := moveGeometryUnclamped handle orig dx dy
    let g := if g.w < 50 then g.setWidth 50 else g
    let g := if g.h < 30 then g.setHeight 30 else g
    g

/-- `DesktopNotesApplet::mouseReleaseEvent` (desktopnotesapplet.cpp:646):
the live geometry is written into the note — `QPointF::toPoint` and
`QSizeF::toSize` both round with `qRound` — and saved through
`updateNote` (`saveNoteData`). -/
def commitGesture (m : Note) (db : DB) (g : RectF) (execOk : Bool) : Note × DB :=
  let m2 := { m with
    position := { x := qRound g.x, y := qRound g.y }
    size := { w := qRound g.w, h := qRound g.h } }
  (m2, (updateNote db m2 execOk).snd)

/-! ### Styling dialog flow (stylingdialog.cpp, handleStyling) -/

/-- One live edit inside the styling dialog: the transparency slider
(value 0..100, stored as `value / 100.0`), the margin slider/spinbox, or a
colour choice (stylingdialog.cpp:108-153).  Each edit mutates the owner's
style in place through the dialog's reference. -/
inductive StyleEdit where
  | setTransparency (value : Int)
  | setMargin (value : Int)
  | setColor (name : String)
deriving DecidableEq, Repr

/-- Apply one dialog edit to the referenced style. -/
def applyStyleEdit (s : NoteStyle) : StyleEdit → NoteStyle
  | .setTransparency value => { s with transparency := (value : ℚ) / 100 }
  | .setMargin value => { s with margin := value }
  | .setColor name => { s with backgroundColor := name }

/-- The dialog's state (stylingdialog.cpp:15-21): `m_originalStyle`, copied
at construction, and the owner's live style, mutated in place through
`m_currentStyleRef`. -/
structure DialogState where
  originalStyle : NoteStyle
  noteStyle : NoteStyle
deriving DecidableEq, Repr

/-- `StylingDialog`'s constructor: both the captured original and the live
reference start at the note's current style. -/
def dialogOpen (s : NoteStyle) : DialogState :=
  { originalStyle := s, noteStyle := s }

/-- One live edit (stylingdialog.cpp:108-153): the referenced style is
mutated; the captured original is untouched. -/
def dialogEdit (d : DialogState) (e : StyleEdit) : DialogState :=
  { d with noteStyle := applyStyleEdit d.noteStyle e }

/-- `StylingDialog::rejectDialog` (stylingdialog.cpp:189): the referenced
style is overwritten with the captured original. -/
def rejectDialog (d : DialogState) : DialogState :=
  { d with noteStyle := d.originalStyle }

/-- `StylingDialog::acceptDialog` (stylingdialog.cpp:181): the referenced
style already carries all edits; nothing changes. -/
def acceptDialog (d : DialogState) : DialogState := d

/-- `DesktopNotesApplet::handleStyling` (desktopnotesapplet.cpp:371): refuse
invalid notes; otherwise open the dialog on the note's style, run the user's
edits, and close it Accepted or Cancelled.  Only the Accepted branch calls
`saveNoteData` (a single `updateNote`).  Returns the in-memory note, the
store, and the number of store writes made during the call. -/
def handleStyling (m : Note) (db : DB) (edits : List StyleEdit)
    (accepted : Bool) (execOk : Bool) : Note × DB × Nat :=
  if m.isValid = false then (m, db, 0)
  else
    let d1 := edits.foldl dialogEdit (dialogOpen m.style)
    if accepted then
      let m2 := { m with style := (acceptDialog d1).noteStyle }
      (m2, (updateNote db m2 execOk).snd, 1)
    else
      let m2 := { m with style := (rejectDialog d1).noteStyle }
      (m2, db, 0)

/-! ### Concrete fixtures used by the witnesses and counterexamples -/

/-- A concrete `"pending_placement"` row with the given id, as deposited by
`handleAddNewNote` (desktopnotesapplet.cpp:475-481): position (300,100),
default size and style. -/
def pendingRow (i : Int) : Row :=
  { id := i, status := "pending_placement", filepath := none,
    posX := 300, posY := 100, sizeW := 200, sizeH := 150,
    style := styleToVariantMap NoteStyle.default }

/-- A store holding a single pending record with id 5. -/
def dbOnePending : DB := { rows := [pendingRow 5], nextId := 6 }

/-- A store holding pending records with ids 3, 7, 9 (in creation order). -/
def dbThreePending : DB :=
  { rows := [pendingRow 3, pendingRow 7, pendingRow 9], nextId := 10 }

/-- A store holding a single `"shown"` record with id 1. -/
def dbOneShown : DB :=
  { rows := [{ id := 1, status := "shown", filepath := none, posX := 50, posY := 50,
               sizeW := 200, sizeH := 150, style := styleToVariantMap NoteStyle.default }],
    nextId := 2 }

/-- A fully populated note used as a round-trip input. -/
def sampleNote : Note :=
  { id := 0, status := "hidden", filepath := "/tmp/a.md",
    position := ⟨1, 2⟩, size := ⟨60, 40⟩,
    style := { transparency := 1/2, backgroundColor := "#112233", margin := 3 } }

/-! ### Helper lemmas -/

/-- A failed UPDATE execution reports failure and leaves the store as it was. -/
theorem updateNote_exec_fail (db : DB) (n : Note) : updateNote db n false = (false, db) := by
  unfold updateNote; split <;> rfl

/-- `qRound` is the identity on integral values. -/
theorem qRound_intCast (n : Int) : qRound (n : ℚ) = n := by
  unfold qRound
  split
  · rw [show ((n:ℚ) + 1/2) = 1/2 + (n:ℚ) by ring, Int.floor_add_int]
    norm_num
  · rw [show ((n:ℚ) - 1/2) = -(1/2) + (n:ℚ) by ring, Int.ceil_add_int]
    norm_num

/-- `qRound` of a value known to equal an integer. -/
theorem qRound_eq_of_intCast {n : Int} {q : ℚ} (h : q = (n:ℚ)) : qRound q = n := by
  rw [h, qRound_intCast]

/-- `qRound` never drops below an integer lower bound of a nonnegative value. -/
theorem le_qRound_of_le {n : Int} {q : ℚ} (h0 : 0 ≤ q) (h : (n:ℚ) ≤ q) : n ≤ qRound q := by
  unfold qRound
  rw [if_pos h0, Int.le_floor]
  linarith

/-- Serialising a style and parsing it back is the identity: the three keys
are found again and the margin survives the int to JSON number to int trip. -/
theorem style_roundtrip (s : NoteStyle) : styleFromVariantMap (styleToVariantMap s) = s := by
  show NoteStyle.mk s.transparency s.backgroundColor (qRound (s.margin : ℚ)) = s
  rw [qRound_intCast]

/-- Live edits never touch the captured original style of the dialog. -/
theorem dialog_foldl_original (edits : List StyleEdit) (d : DialogState) :
    (edits.foldl dialogEdit d).originalStyle = d.originalStyle := by
  induction edits generalizing d with
  | nil => rfl
  | cons e es ih => exact ih (dialogEdit d e)

/-- Reading an id no row carries yields the default-constructed note. -/
theorem getNoteById_absent (db : DB) (i : Int) (h : ∀ r ∈ db.rows, r.id ≠ i) :
    getNoteById db i = Note.default := by
  have hn : db.rows.find? (fun r => r.id == i) = none :=
    List.find?_eq_none.mpr (fun r hr => by simpa using h r hr)
  unfold getNoteById
  rw [hn]

/-- Concrete evaluation of the TopLeft gesture of spec scenario 4: from rect
(100,100,200,150) a delta of (-1000,-1000) moves the left and top edges by
the delta with no clamp (the rect grows), giving (-900,-900,1200,1150). -/
theorem topLeft_gesture_eval :
    moveGeometry .TopLeft ⟨100,100,200,150⟩ (-1000) (-1000) = ⟨-900, -900, 1200, 1150⟩ := by
  simp only [moveGeometry, moveGeometryUnclamped, RectF.setLeft, RectF.setTop, RectF.setRight,
    RectF.setBottom, RectF.setWidth, RectF.setHeight, RectF.translate, RectF.left, RectF.top,
    RectF.right, RectF.bottom, reduceCtorEq, or_self, or_false, false_or, if_false, if_true,
    ite_false, ite_true]
  norm_num

/-! ### The claims -/

/-- C1: the claim asks that the PendingPlacement-to-Shown claim transition be
a single atomic predicate-guarded write, so that of N concurrent claimants
exactly one sees `true`.  The source instead performs a separate read
(`getAllNotes` scan, here `claimRead`) followed by a full-row write
(`updateNote`, here `claimWrite`) that is not guarded by the current status.
This theorem evaluates the code at the failing interleaving: on a store whose
only record (id 5) is pending, two callers both perform their read before
either write; both writes then return `true`, so both callers believe they
claimed record 5 — contradicting the exactly-one-claimant property the claim
(and spec section 9) mandates.  The final status is `"shown"`. -/
theorem C1_double_claim :
    (claimWrite dbOnePending ((claimRead dbOnePending).getD Note.default)).fst = true ∧
    (claimWrite (claimWrite dbOnePending ((claimRead dbOnePending).getD Note.default)).snd
        ((claimRead dbOnePending).getD Note.default)).fst = true ∧
    (getNoteById (claimWrite (claimWrite dbOnePending
        ((claimRead dbOnePending).getD Note.default)).snd
        ((claimRead dbOnePending).getD Note.default)).snd 5).status = "shown" :=
  ⟨by decide, by decide, by decide⟩

/-- C2: `getAllNotes` returns the stored records in ascending-id order (for
every well-formed store, the scan order of the rowid B-tree), and a resolving
instance on a store holding PendingPlacement records with ids 3, 7, 9 adopts
the one with the smallest id: the adoption scan takes id 3 and record 3 ends
up `"shown"` in the store. -/
theorem C2_listAll_ascending_fifo :
    (∀ db : DB, db.wf → List.Chain' (fun a b : Note => a.id < b.id) (getAllNotes db)) ∧
    (initNewNote dbThreePending true true).fst.id = 3 ∧
    (getNoteById (initNewNote dbThreePending true true).snd 3).status = "shown" := by
  refine ⟨?_, by decide, by decide⟩
  intro db h
  unfold getAllNotes
  rw [List.chain'_map]
  exact h.1

/-- C2 witness: the ascending-order part of `C2_listAll_ascending_fifo`
applied to the concrete three-record store. -/
theorem C2_witness :
    dbThreePending.wf ∧
    List.Chain' (fun a b : Note => a.id < b.id) (getAllNotes dbThreePending) := by
  have hwf : dbThreePending.wf := by
    constructor
    · norm_num [dbThreePending, pendingRow, List.chain'_cons]
    · decide
  exact ⟨hwf, C2_listAll_ascending_fifo.1 dbThreePending hwf⟩

/-- C3 counterexample: on a store with PendingPlacement records 3, 7 and 9,
when the claim update on the first candidate (id 3) fails to execute, the
coordinator does NOT continue scanning: it creates a brand-new record
(id 10 = nextId) even though records 7 and 9 are still pending — refuting
the claim that a single failed claim never by itself causes the new-record
fallback while other PendingPlacement records exist. -/
theorem C3_counterexample :
    (initNewNote dbThreePending false true).fst.id = 10 ∧
    (getNoteById (initNewNote dbThreePending false true).snd 7).status = "pending_placement" ∧
    (getNoteById (initNewNote dbThreePending false true).snd 9).status = "pending_placement" :=
  ⟨by decide, by decide, by decide⟩

/-- C3 amended: whenever the adoption scan finds a first PendingPlacement
candidate and the claim update on it fails, `initializeNewNote` falls back
immediately to inserting a fresh default record on the otherwise-unchanged
store; no remaining candidate is attempted. -/
theorem C3_failed_claim_immediate_fallback
    (db : DB) (n : Note) (addOk : Bool) (h : claimRead db = some n) :
    initNewNote db false addOk =
      (if (addNote db Note.default addOk).fst != -1 then
          { Note.default with id := (addNote db Note.default addOk).fst }
        else Note.default,
       (addNote db Note.default addOk).snd) := by
  unfold initNewNote
  unfold claimRead at h
  simp only [h, updateNote_exec_fail]
  simp

/-- C3 witness: `C3_failed_claim_immediate_fallback` at the concrete
three-record store, whose first pending candidate is record 3. -/
theorem C3_witness :
    claimRead dbThreePending = some (noteOfRow (pendingRow 3)) ∧
    initNewNote dbThreePending false true =
      (if (addNote dbThreePending Note.default true).fst != -1 then
          { Note.default with id := (addNote dbThreePending Note.default true).fst }
        else Note.default,
       (addNote dbThreePending Note.default true).snd) :=
  ⟨rfl, C3_failed_claim_immediate_fallback dbThreePending (noteOfRow (pendingRow 3)) true rfl⟩

/-- C4 counterexample: `setNoteStatus` accepts the non-enumerated status
`"archived"`: on a store whose record 1 is `"shown"`, the call returns
`true` and the stored status becomes `"archived"` — refuting the claim that
such a call fails with InvalidStatus and leaves the stored status
unchanged. -/
theorem C4_counterexample :
    (setNoteStatus dbOneShown 1 "archived").fst = true ∧
    (getNoteById (setNoteStatus dbOneShown 1 "archived").snd 1).status = "archived" :=
  ⟨by decide, by decide⟩

/-- C4 amended: `setNoteStatus` performs no validation of the status string.
For every store, every id present in the store and every string `s`
(enumerated or not), the call returns `true` and the stored status of the
targeted record becomes exactly `s`. -/
theorem C4_no_status_validation (db : DB) (i : Int) (s : String)
    (h : (db.rows.find? (fun r => r.id == i)).isSome = true) :
    (setNoteStatus db i s).fst = true ∧
    (getNoteById (setNoteStatus db i s).snd i).status = s := by
  refine ⟨rfl, ?_⟩
  obtain ⟨r0, hr0⟩ := Option.isSome_iff_exists.mp h
  unfold getNoteById setNoteStatus
  rw [List.find?_map]
  have hpf : ((fun r : Row => r.id == i) ∘
      (fun r : Row => if r.id = i then { r with status := s } else r)) =
      (fun r : Row => r.id == i) := by
    funext r
    by_cases hc : r.id = i <;> simp [hc]
  rw [hpf, hr0]
  simp [noteOfRow]
  have := List.find?_some hr0
  have hid : r0.id = i := by simpa using this
  rw [if_pos hid]

/-- C4 witness: `C4_no_status_validation` at the single-pending store,
record 5, status `"hidden"`. -/
theorem C4_witness :
    ((dbOnePending.rows.find? (fun r => r.id == 5)).isSome = true) ∧
    ((setNoteStatus dbOnePending 5 "hidden").fst = true ∧
     (getNoteById (setNoteStatus dbOnePending 5 "hidden").snd 5).status = "hidden") :=
  ⟨by decide, C4_no_status_validation dbOnePending 5 "hidden" (by decide)⟩

/-- C5 counterexample: a Left-handle drag from (100,100,200,150) with delta
(1000,0) overdrags the left edge past the minimum width; the clamp
(`setWidth(50)`) keeps the overdragged LEFT edge at 1100 and relocates the
right edge from 300 to 1150 — refuting the claim that clamping keeps the
opposite edge fixed and recomputes the moved edge. -/
theorem C5_counterexample :
    moveGeometry .Left ⟨100,100,200,150⟩ 1000 0 = ⟨1100, 100, 50, 150⟩ ∧
    (moveGeometry .Left ⟨100,100,200,150⟩ 1000 0).right ≠ (⟨100,100,200,150⟩ : RectF).right := by
  have h : moveGeometry .Left ⟨100,100,200,150⟩ 1000 0 = ⟨1100, 100, 50, 150⟩ := by
    simp only [moveGeometry, moveGeometryUnclamped, RectF.setLeft, RectF.setTop, RectF.setRight,
      RectF.setBottom, RectF.setWidth, RectF.setHeight, RectF.translate, RectF.left, RectF.top,
      RectF.right, RectF.bottom, reduceCtorEq, or_self, or_false, false_or, if_false, if_true,
      ite_false, ite_true]
    norm_num
  refine ⟨h, ?_⟩
  rw [h]
  norm_num [RectF.right]

/-- C5 amended: for every resize handle other than Body, every starting
geometry and every pointer delta, the live geometry after the move has
width at least 50 and height at least 30, and so does the committed
(rounded) geometry written on release; but the clamp fixes the LEFT/TOP
edge of the adjusted rectangle (its x and y are those of the unclamped
adjustment) and recomputes the right/bottom edge, rather than keeping the
edge opposite the drag fixed. -/
theorem C5_resize_clamp_bounds (handle : ResizeHandle) (hb : handle ≠ .Body)
    (orig : RectF) (dx dy : ℚ) (m : Note) (db : DB) (execOk : Bool) :
    50 ≤ (moveGeometry handle orig dx dy).w ∧
    30 ≤ (moveGeometry handle orig dx dy).h ∧
    (moveGeometry handle orig dx dy).x = (moveGeometryUnclamped handle orig dx dy).x ∧
    (moveGeometry handle orig dx dy).y = (moveGeometryUnclamped handle orig dx dy).y ∧
    50 ≤ (commitGesture m db (moveGeometry handle orig dx dy) execOk).fst.size.w ∧
    30 ≤ (commitGesture m db (moveGeometry handle orig dx dy) execOk).fst.size.h := by
  have key : 50 ≤ (moveGeometry handle orig dx dy).w ∧
      30 ≤ (moveGeometry handle orig dx dy).h ∧
      (moveGeometry handle orig dx dy).x = (moveGeometryUnclamped handle orig dx dy).x ∧
      (moveGeometry handle orig dx dy).y = (moveGeometryUnclamped handle orig dx dy).y := by
    unfold moveGeometry
    rw [if_neg hb]
    by_cases h1 : (moveGeometryUnclamped handle orig dx dy).w < 50 <;>
      by_cases h2 : (moveGeometryUnclamped handle orig dx dy).h < 30 <;>
      simp [h1, h2, RectF.setWidth, RectF.setHeight] <;>
      (first | (constructor <;> linarith) | linarith)
  obtain ⟨hw, hh, hx, hy⟩ := key
  refine ⟨hw, hh, hx, hy, ?_, ?_⟩
  · exact le_qRound_of_le (by linarith) (by exact_mod_cast hw)
  · exact le_qRound_of_le (by linarith) (by exact_mod_cast hh)

/-- C5 witness: `C5_resize_clamp_bounds` at a concrete TopLeft overdrag. -/
theorem C5_witness :
    (ResizeHandle.TopLeft ≠ ResizeHandle.Body) ∧
    (50 ≤ (moveGeometry .TopLeft ⟨100,100,200,150⟩ 1000 1000).w ∧
     30 ≤ (moveGeometry .TopLeft ⟨100,100,200,150⟩ 1000 1000).h ∧
     (moveGeometry .TopLeft ⟨100,100,200,150⟩ 1000 1000).x =
       (moveGeometryUnclamped .TopLeft ⟨100,100,200,150⟩ 1000 1000).x ∧
     (moveGeometry .TopLeft ⟨100,100,200,150⟩ 1000 1000).y =
       (moveGeometryUnclamped .TopLeft ⟨100,100,200,150⟩ 1000 1000).y ∧
     50 ≤ (commitGesture Note.default dbOneShown
       (moveGeometry .TopLeft ⟨100,100,200,150⟩ 1000 1000) true).fst.size.w ∧
     30 ≤ (commitGesture Note.default dbOneShown
       (moveGeometry .TopLeft ⟨100,100,200,150⟩ 1000 1000) true).fst.size.h) :=
  ⟨by decide, C5_resize_clamp_bounds .TopLeft (by decide) ⟨100,100,200,150⟩ 1000 1000
    Note.default dbOneShown true⟩

/-- C6 counterexample: the TopLeft gesture from (100,100,200,150) with delta
(-1000,-1000) commits width 1200 (and height 1150), not width 50 and height
30 as the claim states: a negative delta moves the left/top edges outward,
growing the rectangle, so the minimum-size clamp never fires. -/
theorem C6_counterexample :
    (commitGesture Note.default dbOneShown
        (moveGeometry .TopLeft ⟨100,100,200,150⟩ (-1000) (-1000)) true).fst.size.w = 1200 ∧
    ¬((commitGesture Note.default dbOneShown
        (moveGeometry .TopLeft ⟨100,100,200,150⟩ (-1000) (-1000)) true).fst.size.w = 50 ∧
      (commitGesture Note.default dbOneShown
        (moveGeometry .TopLeft ⟨100,100,200,150⟩ (-1000) (-1000)) true).fst.size.h = 30) := by
  have h12 : qRound ((1200 : ℚ)) = 1200 := qRound_eq_of_intCast (by norm_num)
  have hw : (commitGesture Note.default dbOneShown
      (moveGeometry .TopLeft ⟨100,100,200,150⟩ (-1000) (-1000)) true).fst.size.w = 1200 := by
    rw [topLeft_gesture_eval]
    simp [commitGesture, h12]
  refine ⟨hw, ?_⟩
  intro hcontra
  rw [hw] at hcontra
  exact absurd hcontra.1 (by decide)

/-- C6 amended: the TopLeft gesture from (100,100,200,150) with delta
(-1000,-1000) moves the left and top edges by the delta without clamping
(the rectangle grows): the live geometry becomes (-900,-900,1200,1150), the
right and bottom (opposite) edges stay at 300 and 250, and the committed
record has position (-900,-900) and size (1200,1150). -/
theorem C6_topleft_grows :
    moveGeometry .TopLeft ⟨100,100,200,150⟩ (-1000) (-1000) = ⟨-900, -900, 1200, 1150⟩ ∧
    (moveGeometry .TopLeft ⟨100,100,200,150⟩ (-1000) (-1000)).right
      = (⟨100,100,200,150⟩ : RectF).right ∧
    (moveGeometry .TopLeft ⟨100,100,200,150⟩ (-1000) (-1000)).bottom
      = (⟨100,100,200,150⟩ : RectF).bottom ∧
    (commitGesture Note.default dbOneShown
        (moveGeometry .TopLeft ⟨100,100,200,150⟩ (-1000) (-1000)) true).fst.position
      = ⟨-900, -900⟩ ∧
    (commitGesture Note.default dbOneShown
        (moveGeometry .TopLeft ⟨100,100,200,150⟩ (-1000) (-1000)) true).fst.size
      = ⟨1200, 1150⟩ := by
  have hmm : qRound ((-900 : ℚ)) = -900 := qRound_eq_of_intCast (by norm_num)
  have h12 : qRound ((1200 : ℚ)) = 1200 := qRound_eq_of_intCast (by norm_num)
  have h11 : qRound ((1150 : ℚ)) = 1150 := qRound_eq_of_intCast (by norm_num)
  refine ⟨topLeft_gesture_eval, ?_, ?_, ?_, ?_⟩ <;> rw [topLeft_gesture_eval]
  · norm_num [RectF.right]
  · norm_num [RectF.bottom]
  · simp [commitGesture, hmm]
  · simp [commitGesture, h12, h11]

/-- C7: create-then-read round trip.  For every note and every store whose
rows do not already carry the id about to be assigned, `addNote` followed by
`getNoteById` on the returned id yields a record equal to the input in every
field — status, filepath, position, size and all three style components —
aside from the assigned id. -/
theorem C7_create_read_roundtrip (db : DB) (note : Note)
    (h : ∀ r ∈ db.rows, r.id ≠ db.nextId) :
    getNoteById (addNote db note true).snd (addNote db note true).fst =
      { note with id := db.nextId } := by
  unfold addNote getNoteById
  simp only [if_true, ite_true]
  rw [List.find?_append]
  have h1 : db.rows.find? (fun r => r.id == db.nextId) = none :=
    List.find?_eq_none.mpr (fun r hr => by simpa using h r hr)
  rw [h1, Option.none_or, List.find?_cons_of_pos _ (by simp)]
  by_cases hfp : note.filepath.isEmpty
  · have he : note.filepath = "" := (String.isEmpty_iff note.filepath).mp hfp
    rw [he]
    simp [noteOfRow, style_roundtrip, String.isEmpty_iff]
  · simp [noteOfRow, style_roundtrip, hfp]

/-- C7 witness: `C7_create_read_roundtrip` at a fully populated sample note
on the single-record store. -/
theorem C7_witness :
    (∀ r ∈ dbOneShown.rows, r.id ≠ dbOneShown.nextId) ∧
    getNoteById (addNote dbOneShown sampleNote true).snd
        (addNote dbOneShown sampleNote true).fst = { sampleNote with id := dbOneShown.nextId } :=
  ⟨by decide, C7_create_read_roundtrip dbOneShown sampleNote (by decide)⟩

/-- C8 counterexample: an instance starting with remembered id 42 on a store
that does not contain id 42 but does hold a PendingPlacement record (id 3)
does NOT fall through to adoption: the in-memory note keeps id 42, the store
is completely untouched, and record 3 stays `"pending_placement"` — refuting
the claim that the instance behaves as if no id were remembered (which would
claim record 3 or create a new record). -/
theorem C8_counterexample :
    (appletInit 42 dbThreePending true true).fst.id = 42 ∧
    (appletInit 42 dbThreePending true true).snd = dbThreePending ∧
    (getNoteById (appletInit 42 dbThreePending true true).snd 3).status = "pending_placement" :=
  ⟨by decide, rfl, by decide⟩

/-- C8 amended: with a valid remembered id that is absent from the store,
`init`/`loadNoteData` keep the remembered id (clearing only the filepath,
which is already empty on the freshly restored note), perform no adoption
and no creation, and leave the store unchanged; the instance merely shows an
error presentation. -/
theorem C8_orphan_keeps_remembered_id (rememberedId : Int) (db : DB) (updOk addOk : Bool)
    (hid : rememberedId ≠ -1) (habsent : ∀ r ∈ db.rows, r.id ≠ rememberedId) :
    appletInit rememberedId db updOk addOk = ({ Note.default with id := rememberedId }, db) := by
  have hcond : ¬(({ Note.default with id := rememberedId } : Note).isValid = false) := by
    simp [Note.isValid, hid]
  have hg : getNoteById db rememberedId = Note.default :=
    getNoteById_absent db rememberedId habsent
  simp only [appletInit]
  rw [if_neg hcond]
  simp only [loadNoteData]
  rw [if_neg hcond, hg, if_neg (by decide : ¬(Note.default.isValid = true))]
  simp [Note.default]

/-- C8 witness: `C8_orphan_keeps_remembered_id` at remembered id 42 on the
single-record store. -/
theorem C8_witness :
    ((42 : Int) ≠ -1) ∧ (∀ r ∈ dbOneShown.rows, r.id ≠ 42) ∧
    appletInit 42 dbOneShown true true = ({ Note.default with id := 42 }, dbOneShown) :=
  ⟨by decide, by decide,
    C8_orphan_keeps_remembered_id 42 dbOneShown true true (by decide) (by decide)⟩

/-- C9: cancelling the styling dialog restores the in-memory style exactly
to the pre-dialog style (the whole note and the store are returned
unchanged, with zero store writes), for every sequence of live edits; the
store is written — one `updateNote` of the row with the edited style — only
when the dialog is confirmed. -/
theorem C9_cancel_restores_style (m : Note) (db : DB) (edits : List StyleEdit) (execOk : Bool)
    (h : m.isValid = true) :
    handleStyling m db edits false execOk = (m, db, 0) ∧
    (handleStyling m db edits true execOk).snd.snd = 1 ∧
    (handleStyling m db edits true execOk).snd.fst =
      (updateNote db { m with style :=
        (edits.foldl dialogEdit (dialogOpen m.style)).noteStyle } execOk).snd := by
  have hrej : (rejectDialog (edits.foldl dialogEdit (dialogOpen m.style))).noteStyle = m.style := by
    show (edits.foldl dialogEdit (dialogOpen m.style)).originalStyle = m.style
    rw [dialog_foldl_original]
    rfl
  refine ⟨?_, ?_, ?_⟩
  · simp [handleStyling, h, hrej]
  · simp [handleStyling, h]
  · simp [handleStyling, h, acceptDialog]

/-- C9 witness: `C9_cancel_restores_style` at a concrete two-edit session on
the sample note. -/
theorem C9_witness :
    (sampleNote.isValid = true) ∧
    (handleStyling sampleNote dbOneShown
      [StyleEdit.setTransparency 50, StyleEdit.setColor "#000000"] false true
        = (sampleNote, dbOneShown, 0) ∧
     (handleStyling sampleNote dbOneShown
      [StyleEdit.setTransparency 50, StyleEdit.setColor "#000000"] true true).snd.snd = 1 ∧
     (handleStyling sampleNote dbOneShown
      [StyleEdit.setTransparency 50, StyleEdit.setColor "#000000"] true true).snd.fst =
      (updateNote dbOneShown { sampleNote with style :=
        ([StyleEdit.setTransparency 50, StyleEdit.setColor "#000000"].foldl dialogEdit
          (dialogOpen sampleNote.style)).noteStyle } true).snd) :=
  ⟨by decide, C9_cancel_restores_style sampleNote dbOneShown
    [StyleEdit.setTransparency 50, StyleEdit.setColor "#000000"] true (by decide)⟩

/-- C10: for every id not carried by any row, `getNoteById` returns the
default-constructed note used as the NotFound sentinel: id -1 (so `isValid`
is false), status `"shown"`, empty filepath, position (50,50), size
(200,150) and the default style. -/
theorem C10_read_absent_default (db : DB) (i : Int) (h : ∀ r ∈ db.rows, r.id ≠ i) :
    getNoteById db i = Note.default ∧
    Note.default = { id := -1, status := "shown", filepath := "",
                     position := { x := 50, y := 50 }, size := { w := 200, h := 150 },
                     style := { transparency := 1, backgroundColor := "#FFFFE0", margin := 10 } } ∧
    Note.default.isValid = false :=
  ⟨getNoteById_absent db i h, rfl, rfl⟩

/-- C10 witness: `C10_read_absent_default` at id 99 on the single-record
store. -/
theorem C10_witness :
    (∀ r ∈ dbOneShown.rows, r.id ≠ 99) ∧
    (getNoteById dbOneShown 99 = Note.default ∧
     Note.default = { id := -1, status := "shown", filepath := "",
                      position := { x := 50, y := 50 }, size := { w := 200, h := 150 },
                      style := { transparency := 1, backgroundColor := "#FFFFE0", margin := 10 } } ∧
     Note.default.isValid = false) :=
  ⟨by decide, C10_read_absent_default dbOneShown 99 (by decide)⟩

end DesktopNotes
